import Mathlib

/-!
Verification of the protectSUS iterative fix-refinement pipeline.

Shallow embedding of:
- `app/services/command_parser.py` (comment-command parsing, feedback fallback)
- `app/services/fix_pattern_service.py` (pattern store / dedup)
- `app/services/rl_service.py` (guidance model: features, predict, retrain gate)
- `app/services/feedback_service.py` (feedback submission)
- `app/services/pr_workflow_service.py` (approve/deny workflow state machine)

State is passed explicitly; external collaborators (GitHub host, LLM) are
modelled as environment records whose fallible calls return `Except`.
-/

/-! ### Python string primitives (over `List Char`) -/

/-- Python `\s` / `str.strip()` whitespace for the ASCII range:
space, tab, newline, carriage return, vertical tab, form feed. -/
def py_is_space (c : Char) : Bool :=
  c == ' ' || c == '\t' || c == '\n' || c == '\r' ||
  c == Char.ofNat 11 || c == Char.ofNat 12

/-- Python `str.strip()` with no arguments: drop whitespace from both ends. -/
def py_strip (l : List Char) : List Char :=
  ((l.dropWhile py_is_space).reverse.dropWhile py_is_space).reverse

/-- Python `str.strip(chars)`: drop any of the given characters from both ends. -/
def py_strip_chars (cs : List Char) (l : List Char) : List Char :=
  ((l.dropWhile (fun c => cs.contains c)).reverse.dropWhile
    (fun c => cs.contains c)).reverse

/-- ASCII lower-casing, Python `str.lower()` on the ASCII range. -/
def py_lower (l : List Char) : List Char :=
  l.map Char.toLower

/-- Does `a` begin with `pat` (character lists). -/
def list_starts_with : List Char → List Char → Bool
  | [], _ => true
  | _ :: _, [] => false
  | p :: ps, c :: cs => p == c && list_starts_with ps cs

/-- Python `sub in s` (substring containment) for a character list. -/
def contains_sub (s sub : List Char) : Bool :=
  (List.range (s.length + 1)).any fun i => list_starts_with sub (s.drop i)

/-- Python `sub in s` on strings (ASCII model). -/
def str_contains (s sub : String) : Bool :=
  contains_sub s.data sub.data

/-- Python `str.split()` with no arguments: split on whitespace runs,
dropping empty pieces.  Only the piece count is used (word count). -/
def py_word_count (l : List Char) : Nat :=
  ((l.splitOnP py_is_space).filter (fun w => !w.isEmpty)).length

/-- Split a character list on a separator character (Python `str.split(c)`). -/
def split_on_char (sep : Char) : List Char → List (List Char)
  | [] => [[]]
  | c :: rest =>
    match split_on_char sep rest with
    | [] => [[]]
    | h :: t => if c == sep then [] :: h :: t else (c :: h) :: t

/-! ### `pathlib.Path(p).suffix` -/

/-- The `pathlib` name of a path: the last non-empty `/`-separated component. -/
def path_name (p : List Char) : List Char :=
  (((split_on_char '/' p).filter (fun c => !c.isEmpty)).getLast?).getD []

/-- Index of the last `.` in a name, if any. -/
def last_dot_idx (name : List Char) : Option Nat :=
  ((List.range name.length).filter
    (fun i => name.get? i == some '.')).getLast?

/-- Embeds `pathlib.Path(p).suffix`: the extension of the final component, including
the dot; empty when the final component has no dot, starts with its only
dot, or ends with the dot. -/
def path_suffix (p : List Char) : List Char :=
  let name := path_name p
  match last_dot_idx name with
  | none => []
  | some i => if 0 < i && i + 1 < name.length then name.drop i else []

/-! ### `CommandParser.parse_command` (`app/services/command_parser.py`) -/

/-- Parsed comment command: `/approve`, or `/deny` with its feedback text. -/
structure ParsedCommand where
  command : String
  feedback_text : Option String
deriving Repr, DecidableEq

/-- Quote characters stripped by `DENY_SIMPLE_PATTERN`'s `.strip('"\x27')`. -/
def quote_chars : List Char := [Char.ofNat 34, Char.ofNat 39]

/-- Regex `\s*$` under `re.MULTILINE`: some whitespace prefix of `r` reaches
either the end of the string or a newline. -/
def ws_to_eol (r : List Char) : Bool :=
  r.all py_is_space || (r.takeWhile py_is_space).contains '\n'

/-- Regex `APPROVE_PATTERN = ^\s*/approve\s*$` applied with `re.match` and
`IGNORECASE|MULTILINE` to the stripped body. -/
def approve_matches (s : List Char) : Bool :=
  list_starts_with ("/approve").data (py_lower s) &&
  ws_to_eol (s.drop ("/approve").length)

/-- Common prefix of both deny patterns: `^\s*/deny\s*-\s*` under `re.match`
with `IGNORECASE` on the stripped body.  Returns the remainder after the
whitespace following the dash. -/
def deny_stem (s : List Char) : Option (List Char) :=
  if list_starts_with ("/deny").data (py_lower s) then
    let r := (s.drop ("/deny").length).dropWhile py_is_space
    match r with
    | c :: rest => if c == '-' then some (rest.dropWhile py_is_space) else none
    | [] => none
  else none

/-- Regex `DENY_PATTERN = ^\s*/deny\s*-\s*["\x27](.+)["\x27]?\s*$` with
`IGNORECASE|MULTILINE|DOTALL`: requires an opening quote; the greedy `(.+)`
then captures everything to the end of the string (the optional closing
quote and `\s*$` both match empty at the end), so the closing quote is part
of the captured group.  The code then applies `.strip()`. -/
def deny_quoted_match (s : List Char) : Option (List Char) :=
  match deny_stem s with
  | none => none
  | some r =>
    match r with
    | q :: rest =>
      if quote_chars.contains q && !rest.isEmpty then some (py_strip rest)
      else none
    | [] => none

/-- Regex `DENY_SIMPLE_PATTERN = ^\s*/deny\s*-\s*(.+)\s*$` with
`IGNORECASE|MULTILINE|DOTALL`: the greedy `\s*` after the dash consumes the
whitespace run, `(.+)` captures the rest (must be non-empty).  The code then
applies `.strip()` and `.strip('"\x27')`. -/
def deny_simple_match (s : List Char) : Option (List Char) :=
  match deny_stem s with
  | none => none
  | some r =>
    if r.isEmpty then none
    else some (py_strip_chars quote_chars (py_strip r))

/-- Embeds `CommandParser.parse_command`: `/approve`, `/deny - feedback`, or `None`. -/
def parse_command (comment_body : String) : Option ParsedCommand :=
  if comment_body == "" then none
  else
    let s := py_strip comment_body.data
    if approve_matches s then some { command := "approve", feedback_text := none }
    else
      match deny_quoted_match s with
      | some fb => some { command := "deny", feedback_text := some (String.mk fb) }
      | none =>
        match deny_simple_match s with
        | some fb => some { command := "deny", feedback_text := some (String.mk fb) }
        | none => none

/-! ### `CommandParser._fallback_feature_extraction` -/

/-- Structured feedback features extracted from a denial comment. -/
structure FeedbackFeatures where
  identified_issues : List String
  requested_changes : List String
  false_positive_flags : List String
  breaking_change_concerns : Bool
  sentiment : String
  specificity_score : ℚ
deriving Repr, DecidableEq

def false_positive_keywords : List String :=
  ["false positive", "not a vulnerability", "not vulnerable", "not an issue",
   "incorrect"]

def breaking_change_keywords : List String :=
  ["breaking", "breaks", "break", "production", "critical"]

def negative_keywords : List String :=
  ["wrong", "bad", "incorrect", "issue", "problem", "error", "bug"]

def positive_keywords : List String :=
  ["good", "great", "correct", "thanks", "appreciate"]

/-- Python slice `s[:100]`. -/
def py_take (n : Nat) (s : String) : String :=
  String.mk (s.data.take n)

/-- Embeds `CommandParser._fallback_feature_extraction`: deterministic keyword-based
feature extraction used when the LLM path fails. -/
def fallback_feature_extraction (feedback_text : String) : FeedbackFeatures :=
  let feedback_lower := py_lower feedback_text.data
  let fp_flags := false_positive_keywords.filter
    (fun kw => contains_sub feedback_lower kw.data)
  let breaking := breaking_change_keywords.any
    (fun kw => contains_sub feedback_lower kw.data)
  let neg_count := (negative_keywords.filter
    (fun kw => contains_sub feedback_lower kw.data)).length
  let pos_count := (positive_keywords.filter
    (fun kw => contains_sub feedback_lower kw.data)).length
  let sentiment :=
    if neg_count > pos_count then "negative"
    else if pos_count > neg_count then "positive"
    else "neutral"
  let word_count := py_word_count feedback_text.data
  let specificity := min 1 ((word_count : ℚ) / 50)
  { identified_issues := [py_take 100 feedback_text]
    requested_changes := []
    false_positive_flags := fp_flags
    breaking_change_concerns := breaking
    sentiment := sentiment
    specificity_score := specificity }

/-- The spec's four-phrase breaking-change predicate, as the claim words it:
presence of any of "breaking", "breaks", "production", "critical" in the
lower-cased text.  Stated for comparison with the code's own keyword list. -/
def spec_four_phrase_breaking (feedback_text : String) : Bool :=
  (["breaking", "breaks", "production", "critical"]).any
    (fun kw => contains_sub (py_lower feedback_text.data) kw.data)

/-! ### Data model (MongoDB documents, `app/models` / service usage) -/

/-- A vulnerability entry of an analysis document (fields the workflow reads;
absent keys are modelled as `none`, matching the code's `.get` defaults). -/
structure VulnDoc where
  vtype : Option String
  severity : Option String
  file_path : Option String
deriving Repr, DecidableEq

/-- A dependency-risk entry of an analysis document. -/
structure DepDoc where
  risk_level : Option String
deriving Repr, DecidableEq

/-- A fix entry of an analysis document. -/
structure FixDoc where
  original_content : Option String
  fixed_content : Option String
  description : Option String
deriving Repr, DecidableEq

/-- An analysis document (`db.analyses`), restricted to the fields the
pipeline reads or writes.  Timestamps are seconds as rationals. -/
structure AnalysisDoc where
  id : String
  repo_full_name : String
  pr_number : Option Nat
  iteration_number : Option Nat
  vulnerabilities : List VulnDoc
  dependency_risks : List DepDoc
  fixes : List FixDoc
  feedback_features : Option FeedbackFeatures
  user_approved : Option Bool
  approved_by : Option String
  approved_at : Option ℚ
  merged : Bool
  merge_sha : Option String
  denied_by : Option String
  denied_at : Option ℚ
  user_feedback : Option String
  denial_reasons : List String
  total_execution_time : ℚ
  total_tokens_used : ℚ
  total_files : Nat
  agent_count : Nat
  created_at : Option ℚ
deriving Repr, DecidableEq

/-- A stored fix pattern (`db.fix_patterns`). -/
structure FixPattern where
  id : String
  vulnerability_type : String
  severity : String
  file_extension : String
  file_path : String
  code_before : String
  code_after : String
  fix_description : String
  analysis_ids : List String
  repo_full_name : String
  approved_at : ℚ
  last_used_at : ℚ
  success_count : Nat
  created_at : ℚ
deriving Repr, DecidableEq

/-- A user feedback record (`db.user_feedback`). -/
structure FeedbackDoc where
  id : String
  analysis_id : String
  approved : Bool
  feedback_text : Option String
  helpful_findings : List String
  unhelpful_findings : List String
  created_at : ℚ
deriving Repr, DecidableEq

/-! ### Guidance model (`app/services/rl_service.py`) -/

/-- A decision tree of the random-forest classifier: leaves carry the class
sample counts (class 0 = denied, class 1 = approved); inner nodes branch on
`x[idx] <= threshold`.  `predict_proba` of a tree is the leaf's class
frequency vector; the forest averages over its trees. -/
inductive DTree where
  | leaf (c0 c1 : Nat)
  | node (idx : Nat) (threshold : ℚ) (l r : DTree)
deriving Repr, DecidableEq

/-- The fitted `RandomForestClassifier`: its list of trees. -/
structure Forest where
  trees : List DTree
deriving Repr, DecidableEq

/-- The fitted `StandardScaler`: per-feature mean and scale. -/
structure Scaler where
  mean : List ℚ
  scale : List ℚ
deriving Repr, DecidableEq

/-- In-memory `RLService` state: the co-versioned (classifier, scaler) pair
when fitted (`hasattr(model, 'classes_')`), plus the persisted artifact
(`models/rl_model.pkl` + `models/scaler.pkl`). -/
structure RLState where
  fitted : Option (Forest × Scaler)
  artifact : Option (Forest × Scaler)
deriving Repr, DecidableEq

/-- Class-1 probability of one tree at feature vector `x`
(leaf class frequency; `0/0 = 0` in `ℚ` for the impossible empty leaf). -/
def tree_proba1 (x : List ℚ) : DTree → ℚ
  | .leaf c0 c1 => (c1 : ℚ) / ((c0 : ℚ) + (c1 : ℚ))
  | .node i thr l r => if x.getD i 0 ≤ thr then tree_proba1 x l else tree_proba1 x r

/-- Class-1 probability of the forest: mean over trees. -/
def forest_proba1 (f : Forest) (x : List ℚ) : ℚ :=
  ((f.trees.map (tree_proba1 x)).sum) / (f.trees.length : ℚ)

/-- Embeds `StandardScaler.transform`: `(x - mean) / scale` per feature. -/
def scaler_transform (sc : Scaler) (x : List ℚ) : List ℚ :=
  x.mapIdx fun i v => (v - sc.mean.getD i 0) / sc.scale.getD i 1

/-- Count of vulnerabilities with the given severity
(`vuln.get('severity', 'low')`, counted only for known severities). -/
def sev_count (vulns : List VulnDoc) (s : String) : Nat :=
  (vulns.filter (fun v => v.severity.getD "low" == s)).length

/-- Count of dependency risks with the given risk level
(`dep.get('risk_level', 'low')`). -/
def dep_count (deps : List DepDoc) (s : String) : Nat :=
  (deps.filter (fun d => d.risk_level.getD "low" == s)).length

/-- Embeds `sentiment_map.get(..., 0)`: negative/neutral/positive to -1/0/1. -/
def sentiment_to_num (s : String) : ℚ :=
  if s == "negative" then -1 else if s == "neutral" then 0
  else if s == "positive" then 1 else 0

/-- Embeds `RLService.extract_features`: the 20-dimensional feature vector, with
the code's `.get` defaults for every missing input. -/
def extract_features (a : AnalysisDoc) : List ℚ :=
  let vulns := a.vulnerabilities
  let deps := a.dependency_risks
  let ff := a.feedback_features
  let feedback_sentiment := sentiment_to_num ((ff.map (·.sentiment)).getD "neutral")
  let mentions_false_positive : ℚ :=
    if ((ff.map (·.false_positive_flags)).getD []).length > 0 then 1 else 0
  let mentions_breaking_change : ℚ :=
    if (ff.map (·.breaking_change_concerns)).getD false then 1 else 0
  let requests_different_approach : ℚ :=
    if ((ff.map (·.requested_changes)).getD []).length > 0 then 1 else 0
  let feedback_specificity := (ff.map (·.specificity_score)).getD 0
  let iteration_number := a.iteration_number.getD 1
  let time_to_feedback : ℚ :=
    match a.denied_at, a.created_at with
    | some d, some c => (d - c) / 3600
    | _, _ => 0
  [ (vulns.length : ℚ),
    (sev_count vulns "critical" : ℚ),
    (sev_count vulns "high" : ℚ),
    (sev_count vulns "medium" : ℚ),
    (sev_count vulns "low" : ℚ),
    (deps.length : ℚ),
    (dep_count deps "critical" : ℚ),
    a.total_execution_time,
    a.total_tokens_used,
    (a.total_files : ℚ),
    (a.agent_count : ℚ),
    1/2,
    (if (a.pr_number.getD 0) ≠ 0 then 1 else 0),
    feedback_sentiment,
    mentions_false_positive,
    mentions_breaking_change,
    requests_different_approach,
    feedback_specificity,
    (iteration_number : ℚ),
    time_to_feedback ]

/-- Embeds `RLService.predict_approval_probability`: 0.5 when the classifier has
not been fitted, otherwise the forest's class-1 probability on the scaled
feature vector. -/
def predict_approval_probability (rl : RLState) (a : AnalysisDoc) : ℚ :=
  match rl.fitted with
  | none => 1/2
  | some (f, sc) => forest_proba1 f (scaler_transform sc (extract_features a))

/-- The training set built by `update_model_with_feedback`: every historical
feedback record joined to its analysis document (records whose analysis is
missing are skipped). -/
def build_training_set (feedbacks : List FeedbackDoc) (analyses : List AnalysisDoc) :
    List (List ℚ × Bool) :=
  feedbacks.filterMap fun fb =>
    (analyses.find? (fun a => a.id == fb.analysis_id)).map
      (fun a => (extract_features a, fb.approved))

/-- Embeds `RLService.update_model_with_feedback`: a no-op with fewer than 10
cumulative feedback records; otherwise refits scaler and classifier on the
full historical set (the external sklearn fitting procedure is the `fit`
parameter) and persists the artifact via `_save_model`. -/
def update_model_with_feedback (fit : List (List ℚ × Bool) → Forest × Scaler)
    (feedbacks : List FeedbackDoc) (analyses : List AnalysisDoc)
    (rl : RLState) (_analysis : AnalysisDoc) (_feedback : FeedbackDoc) : RLState :=
  if feedbacks.length < 10 then rl
  else
    let fs := fit (build_training_set feedbacks analyses)
    { fitted := some fs, artifact := some fs }

/-! ### Pattern store (`app/services/fix_pattern_service.py`) -/

/-- Argument record of one `store_successful_pattern` call. -/
structure StoreReq where
  analysis_id : String
  vulnerability_type : String
  severity : String
  file_path : String
  code_before : String
  code_after : String
  fix_description : String
  repo_full_name : String
deriving Repr, DecidableEq

/-- Embeds `Path(file_path).suffix or "unknown"`. -/
def file_extension_of (file_path : String) : String :=
  let sfx := path_suffix file_path.data
  if sfx.isEmpty then "unknown" else String.mk sfx

/-- The deduplication signature of a store request:
(vulnerability type, file extension, fix description). -/
def signature_of (r : StoreReq) : String × String × String :=
  (r.vulnerability_type, file_extension_of r.file_path, r.fix_description)

/-- The `find_one` query of `store_successful_pattern`: does the stored
pattern match the signature? -/
def matches_signature (vt ext desc : String) (p : FixPattern) : Bool :=
  p.vulnerability_type == vt && p.file_extension == ext &&
  p.fix_description == desc

/-- Fresh pattern id (`fix_pattern_<uuid>`, modelled with a counter). -/
def mk_pattern_id (n : Nat) : String :=
  "fix_pattern_" ++ toString n

/-- Mongo `update_one` on `fix_patterns`: rewrite the first id match. -/
def update_pattern_first (pid : String) (f : FixPattern → FixPattern) :
    List FixPattern → List FixPattern
  | [] => []
  | p :: rest =>
    if p.id == pid then f p :: rest else p :: update_pattern_first pid f rest

/-- The world state threaded through the workflow: the persisted stores, the
posted PR comments, the persisted guidance-model artifact, fresh-id
counters, the clock, and a ghost log of pattern-store calls. -/
structure WState where
  analyses : List AnalysisDoc
  patterns : List FixPattern
  user_feedback : List FeedbackDoc
  comments : List String
  store_log : List StoreReq
  next_pattern_id : Nat
  next_feedback_id : Nat
  rl_artifact : Option (Forest × Scaler)
  now : ℚ
deriving Repr, DecidableEq

/-- The `$inc`/`$set`/`$push` update applied to an existing pattern:
increment `success_count`, set `last_used_at`, push the analysis id. -/
def bump_pattern (now_ts : ℚ) (aid : String) (p : FixPattern) : FixPattern :=
  { p with
    success_count := p.success_count + 1,
    last_used_at := now_ts,
    analysis_ids := p.analysis_ids ++ [aid] }

/-- The freshly inserted pattern document (`success_count = 1`, one
contributing analysis id). -/
def new_pattern (now_ts : ℚ) (r : StoreReq) (pid : String) : FixPattern :=
  { id := pid
    vulnerability_type := r.vulnerability_type
    severity := r.severity
    file_extension := file_extension_of r.file_path
    file_path := r.file_path
    code_before := r.code_before
    code_after := r.code_after
    fix_description := r.fix_description
    analysis_ids := [r.analysis_id]
    repo_full_name := r.repo_full_name
    approved_at := now_ts
    last_used_at := now_ts
    success_count := 1
    created_at := now_ts }

/-- Embeds `FixPatternService.store_successful_pattern`: if a pattern with the same
(vulnerability type, file extension, fix description) signature exists,
increment its `success_count`, set `last_used_at`, push the analysis id and
return its id; otherwise insert a fresh pattern with `success_count = 1`.
The request is also appended to the ghost `store_log`. -/
def store_successful_pattern (now_ts : ℚ) (r : StoreReq) (st : WState) :
    String × WState :=
  let file_extension := file_extension_of r.file_path
  let st := { st with store_log := st.store_log ++ [r] }
  match st.patterns.find?
      (matches_signature r.vulnerability_type file_extension r.fix_description) with
  | some existing =>
    (existing.id,
     { st with patterns := update_pattern_first existing.id
                 (bump_pattern now_ts r.analysis_id) st.patterns })
  | none =>
    let pid := mk_pattern_id st.next_pattern_id
    (pid, { st with patterns := st.patterns ++ [new_pattern now_ts r pid],
                    next_pattern_id := st.next_pattern_id + 1 })

/-- A sequence of store calls, each with its own timestamp. -/
def run_stores : List (ℚ × StoreReq) → WState → WState
  | [], st => st
  | (t, r) :: rest, st => run_stores rest (store_successful_pattern t r st).2

/-- Number of stored patterns carrying a given signature. -/
def count_signature (st : WState) (vt ext desc : String) : Nat :=
  (st.patterns.filter (matches_signature vt ext desc)).length

/-! ### Feedback submission (`app/services/feedback_service.py`) -/

/-- Fresh feedback id (`feedback_<uuid>`, modelled with a counter). -/
def mk_feedback_id (n : Nat) : String :=
  "feedback_" ++ toString n

/-- Mongo `update_one` on `analyses`: rewrite the first id match. -/
def update_analysis_first (aid : String) (f : AnalysisDoc → AnalysisDoc) :
    List AnalysisDoc → List AnalysisDoc
  | [] => []
  | a :: rest =>
    if a.id == aid then f a :: rest else a :: update_analysis_first aid f rest

/-- Embeds `RLService.__init__` / `_load_or_initialize_model`: a fresh service
instance is fitted exactly when the persisted artifact exists. -/
def load_rl (st : WState) : RLState :=
  { fitted := st.rl_artifact, artifact := st.rl_artifact }

/-- Embeds `FeedbackService.submit_feedback` as invoked by the workflow (both call
sites wrap it in `try/except` and ignore failures): verify the analysis
exists (else the raised `ValueError` is swallowed), insert the feedback
record, denormalize the disposition onto the analysis, then run the guidance
retrain gate on a freshly loaded service and persist its artifact. -/
def submit_feedback_caught (fit : List (List ℚ × Bool) → Forest × Scaler)
    (analysis_id : String) (approved : Bool) (feedback_text : String)
    (st : WState) : WState :=
  match st.analyses.find? (fun a => a.id == analysis_id) with
  | none => st
  | some analysis =>
    let fb : FeedbackDoc :=
      { id := mk_feedback_id st.next_feedback_id
        analysis_id := analysis_id
        approved := approved
        feedback_text := some feedback_text
        helpful_findings := []
        unhelpful_findings := []
        created_at := st.now }
    let st1 := { st with
      user_feedback := st.user_feedback ++ [fb]
      next_feedback_id := st.next_feedback_id + 1
      analyses := update_analysis_first analysis_id
        (fun a => { a with user_approved := some approved,
                           user_feedback := some feedback_text }) st.analyses }
    let rl1 := update_model_with_feedback fit st1.user_feedback st1.analyses
      (load_rl st1) analysis fb
    { st1 with rl_artifact := rl1.artifact }

/-! ### Workflow controller (`app/services/pr_workflow_service.py`) -/

/-- Constant `PRWorkflowService.MAX_ITERATIONS`. -/
def MAX_ITERATIONS : Nat := 3

/-- The `get_pull_request` result fields the workflow reads. -/
structure PRDetails where
  merged : Bool
  state_closed : Bool
deriving Repr, DecidableEq

/-- External collaborators of the approve path.  `Except.error` models the
corresponding GitHub call raising; `check_user_authorization` catches its own
exceptions (fails closed), so authorization is a plain `Bool`. -/
structure ApproveEnv where
  authorized : Bool
  comment_ok : Bool
  pr_details : Except String PRDetails
  pr_has_conflicts : Except String Bool
  merge_sha : Except String String

/-- External collaborators of the deny path.  `llm_features` is the parsed
result of the LLM extraction when it succeeds; `none` triggers the
deterministic keyword fallback (`extract_feedback_features` never raises). -/
structure DenyEnv where
  authorized : Bool
  comment_ok : Bool
  llm_features : Option FeedbackFeatures

/-- Embeds `CommandParser.extract_feedback_features`: LLM result, or the keyword
fallback on JSON/capability failure. -/
def extract_feedback_features (llm_result : Option FeedbackFeatures)
    (feedback_text : String) : FeedbackFeatures :=
  llm_result.getD (fallback_feature_extraction feedback_text)

/-- The outcome dictionary returned by both handlers. -/
structure HandlerResult where
  success : Bool
  reason : String
  message : String
  merge_sha : Option String := none
  pattern_ids : Option (List String) := none
  analysis_id : Option String := none
  iteration_number : Option Nat := none
  feedback_features : Option FeedbackFeatures := none
  regeneration_queued : Bool := false
deriving Repr, DecidableEq

/-- Embeds `github_service.add_pr_comment`: posts to the PR thread, or raises. -/
def post_comment (ok : Bool) (c : String) (st : WState) :
    Except (String × WState) WState :=
  if ok then Except.ok { st with comments := st.comments ++ [c] }
  else Except.error ("comment failed", st)

/-- Embeds `get_analysis_by_pr`: `find_one` on (repo_full_name, pr_number); its own
exceptions are caught and surface as `none`. -/
def find_analysis_by_pr (st : WState) (repo : String) (pr : Nat) :
    Option AnalysisDoc :=
  st.analyses.find? (fun a => a.repo_full_name == repo && a.pr_number == some pr)

/-- The request record built for vulnerability/fix pair `i` of the
pattern-extraction loop of `handle_approve` (step 7), with the code's
`.get` defaults. -/
def mk_store_req (aid repo : String) (v : VulnDoc) (f : FixDoc) : StoreReq :=
  { analysis_id := aid
    vulnerability_type := v.vtype.getD "UNKNOWN"
    severity := v.severity.getD "medium"
    file_path := v.file_path.getD ""
    code_before := f.original_content.getD ""
    code_after := f.fixed_content.getD ""
    fix_description := f.description.getD ""
    repo_full_name := repo }

/-- Embeds `handle_approve` step 7: `for i, vuln in enumerate(vulnerabilities): if
i < len(fixes): store(...)` — positional pairing, stopping at the shorter
list; store failures are caught per iteration (none occur in the model). -/
def store_patterns_loop (aid repo : String) :
    List VulnDoc → List FixDoc → WState → (List String × WState)
  | [], _, st => ([], st)
  | _ :: _, [], st => ([], st)
  | v :: vs, f :: fs, st =>
    let (pid, st1) := store_successful_pattern st.now (mk_store_req aid repo v f) st
    let (ids, st2) := store_patterns_loop aid repo vs fs st1
    (pid :: ids, st2)

/-- Result of the unauthorized guard (shared by both handlers). -/
def unauthorized_result (commenter : String) : HandlerResult :=
  { success := false, reason := "unauthorized",
    message := "User " ++ commenter ++ " is not authorized" }

/-- Result of the missing-analysis guard (shared by both handlers). -/
def not_found_result : HandlerResult :=
  { success := false, reason := "analysis_not_found",
    message := "No analysis found for this PR" }

/-- Embeds `PRWorkflowService.handle_approve`, the body inside its outer
`try`: guards in evaluation order (authorization, existence, already-merged,
already-closed, conflicts), then merge, analysis update, pattern extraction,
feedback submission and the success comment.  `Except.error` carries a
propagating exception together with the state persisted so far. -/
def handle_approve_body (fit : List (List ℚ × Bool) → Forest × Scaler)
    (env : ApproveEnv) (repo : String) (pr : Nat) (commenter : String)
    (st : WState) : Except (String × WState) (HandlerResult × WState) :=
  if env.authorized then
    match find_analysis_by_pr st repo pr with
    | none =>
      (post_comment env.comment_ok
        ("Could not find analysis data for this PR.") st).map
        (fun st1 => (not_found_result, st1))
    | some analysis =>
      match env.pr_details with
      | Except.error e => Except.error (e, st)
      | Except.ok pd =>
        if pd.merged then
          (post_comment env.comment_ok ("This PR has already been merged.") st).map
            (fun st1 => ({ success := true, reason := "already_merged",
                           message := "PR already merged" }, st1))
        else if pd.state_closed then
          (post_comment env.comment_ok ("This PR is already closed.") st).map
            (fun st1 => ({ success := false, reason := "already_closed",
                           message := "PR already closed" }, st1))
        else
          match env.pr_has_conflicts with
          | Except.error e => Except.error (e, st)
          | Except.ok conflicts =>
            if conflicts then
              (post_comment env.comment_ok
                ("Cannot auto-merge: This PR has merge conflicts") st).map
                (fun st1 => ({ success := false, reason := "has_conflicts",
                               message := "PR has merge conflicts" }, st1))
            else
              match env.merge_sha with
              | Except.error e =>
                (post_comment env.comment_ok ("Failed to merge PR: " ++ e) st).map
                  (fun st1 => ({ success := false, reason := "merge_failed",
                                 message := e }, st1))
              | Except.ok sha =>
                let set_approved : AnalysisDoc → AnalysisDoc := fun a =>
                  { a with
                    user_approved := some true
                    approved_by := some commenter
                    approved_at := some st.now
                    merged := true
                    merge_sha := some sha }
                let st1 := { st with analyses :=
                  update_analysis_first analysis.id set_approved st.analyses }
                let stored := store_patterns_loop analysis.id repo
                  analysis.vulnerabilities analysis.fixes st1
                let st3 := submit_feedback_caught fit analysis.id true
                  ("PR approved and merged by @" ++ commenter) stored.2
                (post_comment env.comment_ok ("PR Approved and Merged!") st3).map
                  (fun st4 => ({ success := true, reason := "merged",
                                 message := "PR successfully merged",
                                 merge_sha := some sha,
                                 pattern_ids := some stored.1 }, st4))
  else
    (post_comment env.comment_ok
      ("Only repository collaborators can approve/deny protectSUS fixes.") st).map
      (fun st1 => (unauthorized_result commenter, st1))

/-- The outer `except Exception` of `handle_approve`: any propagating
exception becomes `{success: false, reason: 'internal_error', message:
str(e)}`, with all state persisted before the raise kept. -/
def handle_approve (fit : List (List ℚ × Bool) → Forest × Scaler)
    (env : ApproveEnv) (repo : String) (pr : Nat) (commenter : String)
    (st : WState) : HandlerResult × WState :=
  match handle_approve_body fit env repo pr commenter st with
  | Except.ok r => r
  | Except.error (e, st') =>
    ({ success := false, reason := "internal_error", message := e }, st')

/-- Embeds `PRWorkflowService.handle_deny`, the body inside its outer `try`:
authorization, existence, iteration cap, then feedback extraction, denial
persistence, feedback submission and the acknowledgement comment. -/
def handle_deny_body (fit : List (List ℚ × Bool) → Forest × Scaler)
    (env : DenyEnv) (repo : String) (pr : Nat) (feedback_text : String)
    (commenter : String) (st : WState) :
    Except (String × WState) (HandlerResult × WState) :=
  if env.authorized then
    match find_analysis_by_pr st repo pr with
    | none =>
      (post_comment env.comment_ok
        ("Could not find analysis data for this PR.") st).map
        (fun st1 => (not_found_result, st1))
    | some analysis =>
      let iteration_number := analysis.iteration_number.getD 1
      if iteration_number ≥ MAX_ITERATIONS then
        (post_comment env.comment_ok ("Maximum iterations reached (3)") st).map
          (fun st1 => ({ success := false, reason := "max_iterations",
                         message := "Maximum iterations (3) reached" }, st1))
      else
        let feedback_features :=
          extract_feedback_features env.llm_features feedback_text
        let set_denied : AnalysisDoc → AnalysisDoc := fun a =>
          { a with
            user_approved := some false
            denied_by := some commenter
            denied_at := some st.now
            user_feedback := some feedback_text
            feedback_features := some feedback_features
            denial_reasons := a.denial_reasons ++ [feedback_text] }
        let st1 := { st with analyses :=
          update_analysis_first analysis.id set_denied st.analyses }
        let st2 := submit_feedback_caught fit analysis.id false feedback_text st1
        (post_comment env.comment_ok
          ("Feedback received from @" ++ commenter) st2).map
          (fun st3 => ({ success := true, reason := "feedback_received",
                         message := "Feedback received, regeneration queued",
                         analysis_id := some analysis.id,
                         iteration_number := some iteration_number,
                         feedback_features := some feedback_features,
                         regeneration_queued := true }, st3))
  else
    (post_comment env.comment_ok
      ("Only repository collaborators can approve/deny protectSUS fixes.") st).map
      (fun st1 => (unauthorized_result commenter, st1))

/-- The outer `except Exception` of `handle_deny`. -/
def handle_deny (fit : List (List ℚ × Bool) → Forest × Scaler)
    (env : DenyEnv) (repo : String) (pr : Nat) (feedback_text : String)
    (commenter : String) (st : WState) : HandlerResult × WState :=
  match handle_deny_body fit env repo pr feedback_text commenter st with
  | Except.ok r => r
  | Except.error (e, st') =>
    ({ success := false, reason := "internal_error", message := e }, st')

/-! ### Concrete instances used by the witness theorems -/

/-- Trivial external fitting procedure (empty forest, identity scaler). -/
def wit_fit : List (List ℚ × Bool) → Forest × Scaler :=
  fun _ => (⟨[]⟩, ⟨[], []⟩)

/-- Unfitted guidance service (no persisted artifact). -/
def wit_rl_unfit : RLState := { fitted := none, artifact := none }

/-- An iteration-1 analysis for PR 7 with two vulnerabilities in the same
file and a single fix for that file. -/
def wit_analysis1 : AnalysisDoc :=
  { id := "a1", repo_full_name := "o/r", pr_number := some 7,
    iteration_number := some 1,
    vulnerabilities := [⟨some "SQL_INJECTION", some "high", some "a.py"⟩,
                        ⟨some "XSS", some "low", some "a.py"⟩],
    dependency_risks := [], fixes := [⟨some "bad", some "good", some "fix sql"⟩],
    feedback_features := none, user_approved := none, approved_by := none,
    approved_at := none, merged := false, merge_sha := none, denied_by := none,
    denied_at := none, user_feedback := none, denial_reasons := [],
    total_execution_time := 0, total_tokens_used := 0, total_files := 1,
    agent_count := 2, created_at := some 0 }

/-- The same analysis at the iteration cap. -/
def wit_analysis3 : AnalysisDoc :=
  { wit_analysis1 with id := "a3", iteration_number := some 3 }

/-- World holding only the iteration-1 analysis. -/
def wit_state1 : WState :=
  { analyses := [wit_analysis1], patterns := [], user_feedback := [],
    comments := [], store_log := [], next_pattern_id := 0,
    next_feedback_id := 0, rl_artifact := none, now := 100 }

/-- World holding only the iteration-3 analysis. -/
def wit_state3 : WState :=
  { wit_state1 with analyses := [wit_analysis3] }

/-- World with no analyses and no patterns. -/
def wit_empty_state : WState :=
  { wit_state1 with analyses := [] }

/-- Deny environment on the happy path (LLM extraction fails over to the
keyword fallback). -/
def wit_deny_env : DenyEnv :=
  { authorized := true, comment_ok := true, llm_features := none }

/-- Deny environment: unauthorized actor and a comment post that raises. -/
def wit_deny_env_raise : DenyEnv :=
  { authorized := false, comment_ok := false, llm_features := none }

/-- Approve environment: unauthorized actor on an already-merged PR. -/
def wit_approve_env_unauth : ApproveEnv :=
  { authorized := false, comment_ok := true,
    pr_details := Except.ok ⟨true, false⟩,
    pr_has_conflicts := Except.ok false, merge_sha := Except.ok "sha1" }

/-- Approve environment: full happy path, merge yields `sha1`. -/
def wit_approve_env_ok : ApproveEnv :=
  { authorized := true, comment_ok := true,
    pr_details := Except.ok ⟨false, false⟩,
    pr_has_conflicts := Except.ok false, merge_sha := Except.ok "sha1" }

/-- Approve environment: merge execution raises. -/
def wit_approve_env_merge_fail : ApproveEnv :=
  { wit_approve_env_ok with merge_sha := Except.error "boom" }

/-- Approve environment: `get_pull_request` raises. -/
def wit_approve_env_pr_err : ApproveEnv :=
  { wit_approve_env_ok with pr_details := Except.error "boom" }

/-- A store request. -/
def wit_req1 : StoreReq :=
  { analysis_id := "a1", vulnerability_type := "SQL_INJECTION",
    severity := "high", file_path := "x/y.py", code_before := "bad",
    code_after := "good", fix_description := "use params",
    repo_full_name := "o/r" }

/-- A second request with the same signature (same type, same `.py`
extension, same description) from a different analysis and file. -/
def wit_req2 : StoreReq :=
  { wit_req1 with
    analysis_id := "a2"
    severity := "medium"
    file_path := "z/w.py" }

/-- A feedback record. -/
def wit_fb : FeedbackDoc :=
  { id := "feedback_0", analysis_id := "a1", approved := true,
    feedback_text := some "ok", helpful_findings := [],
    unhelpful_findings := [], created_at := 0 }

/-- Ten historical feedback records (the retrain threshold). -/
def wit_ten_fbs : List FeedbackDoc := List.replicate 10 wit_fb

/-! ### Helper lemmas -/

theorem tree_proba1_mem_unit (x : List ℚ) (t : DTree) :
    0 ≤ tree_proba1 x t ∧ tree_proba1 x t ≤ 1 := by
  induction t with
  | leaf c0 c1 =>
    refine ⟨div_nonneg (by positivity) (by positivity), ?_⟩
    apply div_le_one_of_le₀
    · exact le_add_of_nonneg_left (by positivity)
    · positivity
  | node i thr l r ihl ihr =>
    simp only [tree_proba1]
    split
    · exact ihl
    · exact ihr

theorem sum_le_length_of_le_one :
    ∀ l : List ℚ, (∀ y ∈ l, y ≤ 1) → l.sum ≤ (l.length : ℚ) := by
  intro l h
  induction l with
  | nil => simp
  | cons a as ih =>
    simp only [List.sum_cons, List.length_cons]
    push_cast
    have ha := h a (List.mem_cons_self a as)
    have has := ih (fun y hy => h y (List.mem_cons_of_mem a hy))
    linarith

theorem forest_proba1_mem_unit (f : Forest) (x : List ℚ) :
    0 ≤ forest_proba1 f x ∧ forest_proba1 f x ≤ 1 := by
  unfold forest_proba1
  have hmem : ∀ y ∈ f.trees.map (tree_proba1 x), 0 ≤ y ∧ y ≤ 1 := by
    intro y hy
    obtain ⟨t, _, rfl⟩ := List.mem_map.mp hy
    exact tree_proba1_mem_unit x t
  have h0 : 0 ≤ (f.trees.map (tree_proba1 x)).sum :=
    List.sum_nonneg (fun y hy => (hmem y hy).1)
  have h1 : (f.trees.map (tree_proba1 x)).sum ≤ (f.trees.length : ℚ) := by
    have := sum_le_length_of_le_one (f.trees.map (tree_proba1 x))
      (fun y hy => (hmem y hy).2)
    simpa using this
  rcases Nat.eq_zero_or_pos f.trees.length with hz | hpos
  · have hnil : f.trees = [] := List.length_eq_zero.mp hz
    rw [hnil]
    norm_num
  · have hq : (0 : ℚ) < (f.trees.length : ℚ) := by exact_mod_cast hpos
    exact ⟨div_nonneg h0 (le_of_lt hq), (div_le_one hq).mpr h1⟩

/-! ### Claim theorems -/

/-- Claim C5: `predict_approval_probability` always returns a value in
[0, 1], and returns exactly 0.5 whenever the classifier is unfitted. -/
theorem predict_probability_bounds (rl : RLState) (a : AnalysisDoc) :
    0 ≤ predict_approval_probability rl a ∧
    predict_approval_probability rl a ≤ 1 ∧
    (rl.fitted = none → predict_approval_probability rl a = 1 / 2) := by
  unfold predict_approval_probability
  cases hf : rl.fitted with
  | none => norm_num
  | some fs =>
    obtain ⟨f, sc⟩ := fs
    have h := forest_proba1_mem_unit f (scaler_transform sc (extract_features a))
    exact ⟨h.1, h.2, by simp⟩

/-- Witness for C5: the unfitted service on a concrete analysis returns
exactly 0.5 (which is in [0, 1]). -/
theorem predict_probability_bounds_witness :
    predict_approval_probability wit_rl_unfit wit_analysis1 = 1 / 2 :=
  (predict_probability_bounds wit_rl_unfit wit_analysis1).2.2 rfl

/-- Claim C6: `update_model_with_feedback` is a no-op (model, scaler and
persisted artifact untouched) with fewer than 10 cumulative feedback
records; with at least 10 it refits on the full historical join and persists
the new artifact. -/
theorem retrain_gate (fit : List (List ℚ × Bool) → Forest × Scaler)
    (fbs : List FeedbackDoc) (anas : List AnalysisDoc) (rl : RLState)
    (a : AnalysisDoc) (fb : FeedbackDoc) :
    (fbs.length < 10 → update_model_with_feedback fit fbs anas rl a fb = rl) ∧
    (10 ≤ fbs.length →
      update_model_with_feedback fit fbs anas rl a fb =
        { fitted := some (fit (build_training_set fbs anas)),
          artifact := some (fit (build_training_set fbs anas)) }) := by
  constructor
  · intro h
    simp [update_model_with_feedback, h]
  · intro h
    simp [update_model_with_feedback, Nat.not_lt.mpr h]

/-- Witness for C6: with 0 records the service state (artifact included) is
returned unchanged; with 10 records the artifact is the freshly fit pair. -/
theorem retrain_gate_witness :
    (update_model_with_feedback wit_fit [] [] wit_rl_unfit wit_analysis1 wit_fb
      = wit_rl_unfit) ∧
    (update_model_with_feedback wit_fit wit_ten_fbs [] wit_rl_unfit
        wit_analysis1 wit_fb =
      { fitted := some (wit_fit (build_training_set wit_ten_fbs [])),
        artifact := some (wit_fit (build_training_set wit_ten_fbs [])) }) :=
  ⟨(retrain_gate wit_fit [] [] wit_rl_unfit wit_analysis1 wit_fb).1 (by simp),
   (retrain_gate wit_fit wit_ten_fbs [] wit_rl_unfit wit_analysis1 wit_fb).2
     (by simp [wit_ten_fbs])⟩

/-- Claim C4 (amended): the keyword fallback sets
`breaking_change_concerns` to true exactly when one of the five phrases
"breaking", "breaks", "break", "production", "critical" occurs in the
lower-cased feedback text.  (The claim's four-phrase list omits "break".) -/
theorem breaking_change_keyword_iff (text : String) :
    (fallback_feature_extraction text).breaking_change_concerns = true ↔
    ∃ kw ∈ (["breaking", "breaks", "break", "production", "critical"] :
      List String), contains_sub (py_lower text.data) kw.data = true := by
  simp [fallback_feature_extraction, breaking_change_keywords,
    List.any_eq_true]

/-- Counterexample for C4 as stated: on "take a break" the code sets the
flag, yet none of the claim's four phrases occurs in the text. -/
theorem breaking_change_four_phrase_cex :
    (fallback_feature_extraction ("take a break")).breaking_change_concerns
      = true ∧
    spec_four_phrase_breaking ("take a break") = false := by
  constructor
  · decide
  · decide

/-- Claim C9: evaluation of `parse_command` at the failing input.  On the
documented quoted form the greedy `(.+)` of `DENY_PATTERN` swallows the
closing quote, so the feedback text is not the quoted text verbatim: a
trailing quote character is retained.  Unquoted text is captured verbatim
(trimmed), and non-command comments yield `None`. -/
theorem deny_quoted_retains_quote :
    parse_command ("/deny - \"hello\"") =
      some { command := "deny", feedback_text := some "hello\"" } ∧
    parse_command ("/deny - hello there ") =
      some { command := "deny", feedback_text := some "hello there" } ∧
    parse_command ("random text") = none := by
  refine ⟨?_, ?_, ?_⟩
  · decide
  · decide
  · decide

/-- Claim C3: with authorization denied (and the notification post
succeeding), `handle_approve` returns `unauthorized` whatever the analysis
store and the PR's disposition state hold — the authorization guard runs
before the existence and disposition guards. -/
theorem handle_approve_unauthorized_first
    (fit : List (List ℚ × Bool) → Forest × Scaler) (env : ApproveEnv)
    (repo : String) (pr : Nat) (commenter : String) (st : WState)
    (hauth : env.authorized = false) (hcomment : env.comment_ok = true) :
    (handle_approve fit env repo pr commenter st).1 =
      unauthorized_result commenter ∧
    (handle_approve fit env repo pr commenter st).1.reason = "unauthorized" := by
  constructor
  · simp [handle_approve, handle_approve_body, post_comment, Except.map,
      hauth, hcomment]
  · simp [handle_approve, handle_approve_body, post_comment, Except.map,
      hauth, hcomment, unauthorized_result]

/-- Witness for C3: an unauthorized actor on an already-merged PR receives
`unauthorized`, not `already_merged`. -/
theorem handle_approve_unauthorized_first_witness :
    (handle_approve wit_fit wit_approve_env_unauth ("o/r") 7 ("mallory")
        wit_state1).1 = unauthorized_result ("mallory") ∧
    (handle_approve wit_fit wit_approve_env_unauth ("o/r") 7 ("mallory")
        wit_state1).1.reason = "unauthorized" :=
  handle_approve_unauthorized_first wit_fit wit_approve_env_unauth ("o/r") 7
    ("mallory") wit_state1 rfl rfl

/-- Claim C1: a deny on an analysis at the iteration cap (authorization
passing, analysis found, notification post succeeding) fails with reason
`max_iterations`, creates no analysis record and persists no feedback or
disposition change. -/
theorem handle_deny_max_iterations
    (fit : List (List ℚ × Bool) → Forest × Scaler) (env : DenyEnv)
    (repo : String) (pr : Nat) (feedback_text commenter : String)
    (st : WState) (a : AnalysisDoc)
    (hauth : env.authorized = true) (hcomment : env.comment_ok = true)
    (hfind : find_analysis_by_pr st repo pr = some a)
    (hiter : MAX_ITERATIONS ≤ a.iteration_number.getD 1) :
    (handle_deny fit env repo pr feedback_text commenter st).1.success
      = false ∧
    (handle_deny fit env repo pr feedback_text commenter st).1.reason
      = "max_iterations" ∧
    (handle_deny fit env repo pr feedback_text commenter st).2.analyses
      = st.analyses ∧
    (handle_deny fit env repo pr feedback_text commenter st).2.user_feedback
      = st.user_feedback ∧
    (handle_deny fit env repo pr feedback_text commenter st).2.patterns
      = st.patterns ∧
    (handle_deny fit env repo pr feedback_text commenter st).2.store_log
      = st.store_log ∧
    (handle_deny fit env repo pr feedback_text commenter st).2.rl_artifact
      = st.rl_artifact := by
  simp [handle_deny, handle_deny_body, post_comment, Except.map, hauth,
    hcomment, hfind, hiter]

/-- Witness for C1: concrete deny on an iteration-3 analysis. -/
theorem handle_deny_max_iterations_witness :
    (handle_deny wit_fit wit_deny_env ("o/r") 7 ("bad") ("alice")
        wit_state3).1.success = false ∧
    (handle_deny wit_fit wit_deny_env ("o/r") 7 ("bad") ("alice")
        wit_state3).1.reason = "max_iterations" ∧
    (handle_deny wit_fit wit_deny_env ("o/r") 7 ("bad") ("alice")
        wit_state3).2.analyses = wit_state3.analyses ∧
    (handle_deny wit_fit wit_deny_env ("o/r") 7 ("bad") ("alice")
        wit_state3).2.user_feedback = wit_state3.user_feedback ∧
    (handle_deny wit_fit wit_deny_env ("o/r") 7 ("bad") ("alice")
        wit_state3).2.patterns = wit_state3.patterns ∧
    (handle_deny wit_fit wit_deny_env ("o/r") 7 ("bad") ("alice")
        wit_state3).2.store_log = wit_state3.store_log ∧
    (handle_deny wit_fit wit_deny_env ("o/r") 7 ("bad") ("alice")
        wit_state3).2.rl_artifact = wit_state3.rl_artifact :=
  handle_deny_max_iterations wit_fit wit_deny_env ("o/r") 7 ("bad") ("alice")
    wit_state3 wit_analysis3 rfl rfl (by decide) (by decide)

/-- Claim C8: when merge execution raises (all earlier guards passing),
`handle_approve` returns `merge_failed` and the persisted stores are
untouched: no approval flags or merge sha on the analysis, no pattern-store
entries, no feedback records. -/
theorem merge_failure_frame
    (fit : List (List ℚ × Bool) → Forest × Scaler) (env : ApproveEnv)
    (repo : String) (pr : Nat) (commenter : String) (st : WState)
    (a : AnalysisDoc) (pd : PRDetails) (e : String)
    (hauth : env.authorized = true) (hcomment : env.comment_ok = true)
    (hfind : find_analysis_by_pr st repo pr = some a)
    (hpd : env.pr_details = Except.ok pd) (hm : pd.merged = false)
    (hcl : pd.state_closed = false)
    (hconf : env.pr_has_conflicts = Except.ok false)
    (hmerge : env.merge_sha = Except.error e) :
    (handle_approve fit env repo pr commenter st).1.success = false ∧
    (handle_approve fit env repo pr commenter st).1.reason = "merge_failed" ∧
    (handle_approve fit env repo pr commenter st).1.message = e ∧
    (handle_approve fit env repo pr commenter st).2.analyses = st.analyses ∧
    (handle_approve fit env repo pr commenter st).2.patterns = st.patterns ∧
    (handle_approve fit env repo pr commenter st).2.user_feedback
      = st.user_feedback ∧
    (handle_approve fit env repo pr commenter st).2.store_log = st.store_log ∧
    (handle_approve fit env repo pr commenter st).2.rl_artifact
      = st.rl_artifact := by
  simp [handle_approve, handle_approve_body, post_comment, Except.map,
    hauth, hcomment, hfind, hpd, hm, hcl, hconf, hmerge]

/-- Witness for C8: concrete approve whose merge call raises. -/
theorem merge_failure_frame_witness :
    (handle_approve wit_fit wit_approve_env_merge_fail ("o/r") 7 ("alice")
        wit_state1).1.success = false ∧
    (handle_approve wit_fit wit_approve_env_merge_fail ("o/r") 7 ("alice")
        wit_state1).1.reason = "merge_failed" ∧
    (handle_approve wit_fit wit_approve_env_merge_fail ("o/r") 7 ("alice")
        wit_state1).1.message = "boom" ∧
    (handle_approve wit_fit wit_approve_env_merge_fail ("o/r") 7 ("alice")
        wit_state1).2.analyses = wit_state1.analyses ∧
    (handle_approve wit_fit wit_approve_env_merge_fail ("o/r") 7 ("alice")
        wit_state1).2.patterns = wit_state1.patterns ∧
    (handle_approve wit_fit wit_approve_env_merge_fail ("o/r") 7 ("alice")
        wit_state1).2.user_feedback = wit_state1.user_feedback ∧
    (handle_approve wit_fit wit_approve_env_merge_fail ("o/r") 7 ("alice")
        wit_state1).2.store_log = wit_state1.store_log ∧
    (handle_approve wit_fit wit_approve_env_merge_fail ("o/r") 7 ("alice")
        wit_state1).2.rl_artifact = wit_state1.rl_artifact :=
  merge_failure_frame wit_fit wit_approve_env_merge_fail ("o/r") 7 ("alice")
    wit_state1 wit_analysis1 ⟨false, false⟩ ("boom") rfl rfl (by decide) rfl
    rfl rfl rfl rfl

/-- Claim C10: both handlers are total records with `success`, `reason` and
`message` by construction; every exception propagating out of a handler body
is mapped by the outer handler to `success := false`,
`reason := "internal_error"` and the exception text, with the state
persisted so far kept. -/
theorem handlers_total_internal_error :
    (∀ (fit : List (List ℚ × Bool) → Forest × Scaler) (env : ApproveEnv)
        (repo : String) (pr : Nat) (commenter : String) (st : WState)
        (e : String) (st' : WState),
      handle_approve_body fit env repo pr commenter st
        = Except.error (e, st') →
      handle_approve fit env repo pr commenter st =
        ({ success := false, reason := "internal_error", message := e },
         st')) ∧
    (∀ (fit : List (List ℚ × Bool) → Forest × Scaler) (env : DenyEnv)
        (repo : String) (pr : Nat) (feedback_text commenter : String)
        (st : WState) (e : String) (st' : WState),
      handle_deny_body fit env repo pr feedback_text commenter st
        = Except.error (e, st') →
      handle_deny fit env repo pr feedback_text commenter st =
        ({ success := false, reason := "internal_error", message := e },
         st')) := by
  constructor
  · intro fit env repo pr commenter st e st' h
    simp [handle_approve, h]
  · intro fit env repo pr feedback_text commenter st e st' h
    simp [handle_deny, h]

/-- Witness for C10: a raising `get_pull_request` on the approve path and a
raising comment post on the deny path both surface as `internal_error`. -/
theorem handlers_total_internal_error_witness :
    handle_approve wit_fit wit_approve_env_pr_err ("o/r") 7 ("alice")
        wit_state1 =
      ({ success := false, reason := "internal_error", message := "boom" },
       wit_state1) ∧
    handle_deny wit_fit wit_deny_env_raise ("o/r") 7 ("bad") ("mallory")
        wit_state1 =
      ({ success := false, reason := "internal_error",
         message := "comment failed" }, wit_state1) :=
  ⟨handlers_total_internal_error.1 wit_fit wit_approve_env_pr_err ("o/r") 7
     ("alice") wit_state1 ("boom") wit_state1 rfl,
   handlers_total_internal_error.2 wit_fit wit_deny_env_raise ("o/r") 7
     ("bad") ("mallory") wit_state1 ("comment failed") wit_state1 rfl⟩

theorem store_log_after_store (t : ℚ) (r : StoreReq) (st : WState) :
    (store_successful_pattern t r st).2.store_log = st.store_log ++ [r] := by
  simp only [store_successful_pattern]
  split <;> rfl

theorem loop_log (aid repo : String) :
    ∀ (vs : List VulnDoc) (fs : List FixDoc) (st : WState),
    (store_patterns_loop aid repo vs fs st).2.store_log
      = st.store_log ++ List.zipWith (mk_store_req aid repo) vs fs := by
  intro vs
  induction vs with
  | nil => intro fs st; simp [store_patterns_loop]
  | cons v vs ih =>
    intro fs st
    cases fs with
    | nil => simp [store_patterns_loop]
    | cons f fs =>
      simp only [store_patterns_loop, List.zipWith_cons_cons]
      rw [ih, store_log_after_store]
      simp

theorem loop_ids_length (aid repo : String) :
    ∀ (vs : List VulnDoc) (fs : List FixDoc) (st : WState),
    (store_patterns_loop aid repo vs fs st).1.length
      = min vs.length fs.length := by
  intro vs
  induction vs with
  | nil => intro fs st; simp [store_patterns_loop]
  | cons v vs ih =>
    intro fs st
    cases fs with
    | nil => simp [store_patterns_loop]
    | cons f fs =>
      simp only [store_patterns_loop, List.length_cons]
      rw [ih]
      simp [Nat.succ_min_succ]

theorem submit_preserves_store_log
    (fit : List (List ℚ × Bool) → Forest × Scaler)
    (aid : String) (ap : Bool) (txt : String) (st : WState) :
    (submit_feedback_caught fit aid ap txt st).store_log = st.store_log := by
  simp only [submit_feedback_caught]
  split <;> rfl

/-- Claim C7 (amended): on a successful merge the pattern-extraction loop
pairs vulnerabilities with fixes positionally — exactly
`min (#vulnerabilities) (#fixes)` store calls are made, the i-th call
pairing vulnerability i with fix i; vulnerabilities beyond the fix count
contribute no call. -/
theorem pattern_store_positional_pairing
    (fit : List (List ℚ × Bool) → Forest × Scaler) (env : ApproveEnv)
    (repo : String) (pr : Nat) (commenter : String) (st : WState)
    (a : AnalysisDoc) (pd : PRDetails) (sha : String)
    (hauth : env.authorized = true) (hcomment : env.comment_ok = true)
    (hfind : find_analysis_by_pr st repo pr = some a)
    (hpd : env.pr_details = Except.ok pd) (hm : pd.merged = false)
    (hcl : pd.state_closed = false)
    (hconf : env.pr_has_conflicts = Except.ok false)
    (hmerge : env.merge_sha = Except.ok sha) :
    (handle_approve fit env repo pr commenter st).1.reason = "merged" ∧
    (∃ ids, (handle_approve fit env repo pr commenter st).1.pattern_ids
        = some ids ∧
      ids.length = min a.vulnerabilities.length a.fixes.length) ∧
    (handle_approve fit env repo pr commenter st).2.store_log
      = st.store_log ++
        List.zipWith (mk_store_req a.id repo) a.vulnerabilities a.fixes := by
  simp only [handle_approve, handle_approve_body, post_comment, Except.map,
    hauth, hcomment, hfind, hpd, hm, hcl, hconf, hmerge, if_true, if_false,
    Bool.false_eq_true, ite_false, ite_true]
  refine ⟨trivial, ⟨_, rfl, ?_⟩, ?_⟩
  · exact loop_ids_length a.id repo a.vulnerabilities a.fixes _
  · rw [submit_preserves_store_log, loop_log]

/-- Witness for C7's amended statement: concrete successful merge. -/
theorem pattern_store_positional_pairing_witness :
    (handle_approve wit_fit wit_approve_env_ok ("o/r") 7 ("alice")
        wit_state1).1.reason = "merged" ∧
    (∃ ids, (handle_approve wit_fit wit_approve_env_ok ("o/r") 7 ("alice")
        wit_state1).1.pattern_ids = some ids ∧
      ids.length = min wit_analysis1.vulnerabilities.length
        wit_analysis1.fixes.length) ∧
    (handle_approve wit_fit wit_approve_env_ok ("o/r") 7 ("alice")
        wit_state1).2.store_log
      = wit_state1.store_log ++
        List.zipWith (mk_store_req wit_analysis1.id ("o/r"))
          wit_analysis1.vulnerabilities wit_analysis1.fixes :=
  pattern_store_positional_pairing wit_fit wit_approve_env_ok ("o/r") 7
    ("alice") wit_state1 wit_analysis1 ⟨false, false⟩ ("sha1") rfl rfl
    (by decide) rfl rfl rfl rfl rfl

/-- Counterexample for C7 as stated: a successful merge of an analysis with
two vulnerabilities in one file and the single fix covering that file (one
fix per affected file) performs only one store call, so the second
vulnerability's (vulnerability, fix) pair is never stored. -/
theorem pattern_pairing_cex :
    (handle_approve wit_fit wit_approve_env_ok ("o/r") 7 ("alice")
        wit_state1).1.reason = "merged" ∧
    wit_analysis1.vulnerabilities.length = 2 ∧
    wit_analysis1.fixes.length = 1 ∧
    (handle_approve wit_fit wit_approve_env_ok ("o/r") 7 ("alice")
        wit_state1).2.store_log.length = 1 := by
  refine ⟨?_, ?_, ?_, ?_⟩
  · decide
  · decide
  · decide
  · decide

theorem matches_bump (vt ext d : String) (t : ℚ) (aid : String)
    (p : FixPattern) :
    matches_signature vt ext d (bump_pattern t aid p)
      = matches_signature vt ext d p := rfl

theorem update_first_filter_len (pid : String) (f : FixPattern → FixPattern)
    (q : FixPattern → Bool) (hf : ∀ p, q (f p) = q p) :
    ∀ l : List FixPattern,
    ((update_pattern_first pid f l).filter q).length = (l.filter q).length := by
  intro l
  induction l with
  | nil => rfl
  | cons p rest ih =>
    simp only [update_pattern_first]
    split
    · simp only [List.filter_cons, hf p]
      cases hq : q p <;> simp [hq]
    · simp only [List.filter_cons]
      cases hq : q p <;> simp [hq, ih]

theorem count_zero_iff_none (st : WState) (vt ext d : String) :
    count_signature st vt ext d = 0 ↔
    st.patterns.find? (matches_signature vt ext d) = none := by
  unfold count_signature
  rw [List.length_eq_zero, List.filter_eq_nil_iff, List.find?_eq_none]

theorem update_first_append (pid : String) (f : FixPattern → FixPattern) :
    ∀ (l1 l2 : List FixPattern), (∀ p ∈ l1, (p.id == pid) = false) →
    update_pattern_first pid f (l1 ++ l2)
      = l1 ++ update_pattern_first pid f l2 := by
  intro l1
  induction l1 with
  | nil => intro l2 _; rfl
  | cons p rest ih =>
    intro l2 h
    simp only [List.cons_append, update_pattern_first,
      h p (List.mem_cons_self p rest)]
    simp only [Bool.false_eq_true, if_false, List.cons.injEq, true_and]
    exact ih l2 (fun q hq => h q (List.mem_cons_of_mem p hq))

theorem store_insert_eq (t : ℚ) (r : StoreReq) (st : WState)
    (h : st.patterns.find? (matches_signature r.vulnerability_type
      (file_extension_of r.file_path) r.fix_description) = none) :
    store_successful_pattern t r st =
      (mk_pattern_id st.next_pattern_id,
       { st with
         store_log := st.store_log ++ [r],
         patterns := st.patterns ++
           [new_pattern t r (mk_pattern_id st.next_pattern_id)],
         next_pattern_id := st.next_pattern_id + 1 }) := by
  simp only [store_successful_pattern]
  rw [h]

theorem store_update_eq (t : ℚ) (r : StoreReq) (st : WState) (p : FixPattern)
    (h : st.patterns.find? (matches_signature r.vulnerability_type
      (file_extension_of r.file_path) r.fix_description) = some p) :
    store_successful_pattern t r st =
      (p.id,
       { st with
         store_log := st.store_log ++ [r],
         patterns := update_pattern_first p.id
           (bump_pattern t r.analysis_id) st.patterns }) := by
  simp only [store_successful_pattern]
  rw [h]

theorem store_count_le (t : ℚ) (r : StoreReq) (st : WState) (vt ext d : String)
    (h : count_signature st vt ext d ≤ 1) :
    count_signature (store_successful_pattern t r st).2 vt ext d ≤ 1 := by
  rcases hf : st.patterns.find? (matches_signature r.vulnerability_type
      (file_extension_of r.file_path) r.fix_description) with _ | p
  · rw [store_insert_eq t r st hf]
    unfold count_signature at *
    simp only [List.filter_append, List.length_append]
    by_cases hm : matches_signature vt ext d
        (new_pattern t r (mk_pattern_id st.next_pattern_id)) = true
    · have hm' := hm
      simp only [matches_signature, new_pattern, Bool.and_eq_true,
        beq_iff_eq] at hm'
      obtain ⟨⟨e1, e2⟩, e3⟩ := hm'
      subst e1; subst e2; subst e3
      have h0 : (st.patterns.filter (matches_signature r.vulnerability_type
          (file_extension_of r.file_path) r.fix_description)).length = 0 := by
        rw [List.length_eq_zero, List.filter_eq_nil_iff]
        rw [List.find?_eq_none] at hf
        exact hf
      rw [h0]
      simp [hm]
    · simp [List.filter_cons, hm]
      exact h
  · rw [store_update_eq t r st p hf]
    unfold count_signature at *
    rw [update_first_filter_len p.id _ _ (matches_bump vt ext d t r.analysis_id)]
    exact h

theorem run_stores_count_le :
    ∀ (calls : List (ℚ × StoreReq)) (st : WState) (vt ext d : String),
    count_signature st vt ext d ≤ 1 →
    count_signature (run_stores calls st) vt ext d ≤ 1 := by
  intro calls
  induction calls with
  | nil => intro st vt ext d h; exact h
  | cons c rest ih =>
    intro st vt ext d h
    obtain ⟨t, r⟩ := c
    exact ih _ vt ext d (store_count_le t r st vt ext d h)

/-- Claim C2: pattern-store deduplication.  (i) Any sequence of store calls
preserves "at most one pattern row per signature".  (ii) Starting with no
row for the signature (and a fresh generated id), a second store with an
identical (vulnerability type, file extension, fix description) signature
returns the first call's id instead of inserting a new row, leaving exactly
one row for the signature, with `success_count = 2`, both contributing
analysis ids in order, and `last_used_at` set to the second call's clock. -/
theorem store_pattern_dedup :
    (∀ (calls : List (ℚ × StoreReq)) (st : WState) (vt ext d : String),
      count_signature st vt ext d ≤ 1 →
      count_signature (run_stores calls st) vt ext d ≤ 1) ∧
    (∀ (st : WState) (t1 t2 : ℚ) (ra rb : StoreReq),
      signature_of rb = signature_of ra →
      count_signature st ra.vulnerability_type
        (file_extension_of ra.file_path) ra.fix_description = 0 →
      (∀ p ∈ st.patterns, p.id ≠ mk_pattern_id st.next_pattern_id) →
      (store_successful_pattern t2 rb
          (store_successful_pattern t1 ra st).2).1
        = (store_successful_pattern t1 ra st).1 ∧
      (store_successful_pattern t2 rb
          (store_successful_pattern t1 ra st).2).2.patterns.length
        = (store_successful_pattern t1 ra st).2.patterns.length ∧
      count_signature (store_successful_pattern t2 rb
          (store_successful_pattern t1 ra st).2).2
        ra.vulnerability_type (file_extension_of ra.file_path)
        ra.fix_description = 1 ∧
      ∃ p, (store_successful_pattern t2 rb
          (store_successful_pattern t1 ra st).2).2.patterns.find?
            (matches_signature ra.vulnerability_type
              (file_extension_of ra.file_path) ra.fix_description)
          = some p ∧
        p.success_count = 2 ∧
        p.analysis_ids = [ra.analysis_id, rb.analysis_id] ∧
        p.last_used_at = t2 ∧
        p.id = (store_successful_pattern t1 ra st).1) := by
  constructor
  · exact run_stores_count_le
  · intro st t1 t2 ra rb hsig h0 hfresh
    have hs := hsig
    simp only [signature_of, Prod.mk.injEq] at hs
    obtain ⟨hvt, hext, hfd⟩ := hs
    have hnone : st.patterns.find? (matches_signature ra.vulnerability_type
        (file_extension_of ra.file_path) ra.fix_description) = none :=
      (count_zero_iff_none st _ _ _).mp h0
    have e1 := store_insert_eq t1 ra st hnone
    have hmatch_np : matches_signature ra.vulnerability_type
        (file_extension_of ra.file_path) ra.fix_description
        (new_pattern t1 ra (mk_pattern_id st.next_pattern_id)) = true := by
      simp [matches_signature, new_pattern]
    have hfind2 : ((store_successful_pattern t1 ra st).2).patterns.find?
        (matches_signature rb.vulnerability_type
          (file_extension_of rb.file_path) rb.fix_description)
        = some (new_pattern t1 ra (mk_pattern_id st.next_pattern_id)) := by
      rw [e1, hvt, hext, hfd]
      show (st.patterns ++
        [new_pattern t1 ra (mk_pattern_id st.next_pattern_id)]).find? _ = _
      rw [List.find?_append, hnone]
      simp [List.find?, hmatch_np]
    have e2 := store_update_eq t2 rb (store_successful_pattern t1 ra st).2
      (new_pattern t1 ra (mk_pattern_id st.next_pattern_id)) hfind2
    have hfr : ∀ p ∈ st.patterns,
        (p.id == (new_pattern t1 ra (mk_pattern_id st.next_pattern_id)).id)
          = false := by
      intro p hp
      exact beq_eq_false_iff_ne.mpr (by simpa [new_pattern] using hfresh p hp)
    have hub : update_pattern_first
        (new_pattern t1 ra (mk_pattern_id st.next_pattern_id)).id
        (bump_pattern t2 rb.analysis_id)
        ((store_successful_pattern t1 ra st).2).patterns
        = st.patterns ++
          [bump_pattern t2 rb.analysis_id
            (new_pattern t1 ra (mk_pattern_id st.next_pattern_id))] := by
      rw [e1]
      show update_pattern_first _ _ (st.patterns ++ [_]) = _
      rw [update_first_append _ _ st.patterns _ hfr]
      simp [update_pattern_first]
    have hfilter0 : st.patterns.filter (matches_signature
        ra.vulnerability_type (file_extension_of ra.file_path)
        ra.fix_description) = [] := by
      rw [List.filter_eq_nil_iff]
      rw [List.find?_eq_none] at hnone
      exact hnone
    refine ⟨?_, ?_, ?_, ?_⟩
    · rw [e2, e1]
      simp [new_pattern]
    · rw [e2]
      simp only [hub]
      rw [e1]
      simp
    · rw [e2]
      unfold count_signature
      simp only [hub]
      simp [List.filter_append, hfilter0, matches_bump, hmatch_np]
    · refine ⟨bump_pattern t2 rb.analysis_id
        (new_pattern t1 ra (mk_pattern_id st.next_pattern_id)),
        ?_, ?_, ?_, ?_, ?_⟩
      · rw [e2]
        simp only [hub]
        rw [List.find?_append, List.find?_eq_none.mpr ?hnomatch]
        · simp [List.find?, matches_bump, hmatch_np]
        · intro p hp
          rw [List.filter_eq_nil_iff] at hfilter0
          exact hfilter0 p hp
      · simp [bump_pattern, new_pattern]
      · simp [bump_pattern, new_pattern]
      · simp [bump_pattern]
      · rw [e1]
        simp [bump_pattern, new_pattern]

/-- Witness for C2: two concrete stores with the same signature (same
vulnerability type, both `.py` files, same description) from different
analyses, starting from the empty store. -/
theorem store_pattern_dedup_witness :
    (count_signature (run_stores [(1, wit_req1), (2, wit_req2)]
        wit_empty_state) ("SQL_INJECTION") (".py") ("use params") ≤ 1) ∧
    ((store_successful_pattern 2 wit_req2
        (store_successful_pattern 1 wit_req1 wit_empty_state).2).1
      = (store_successful_pattern 1 wit_req1 wit_empty_state).1 ∧
    (store_successful_pattern 2 wit_req2
        (store_successful_pattern 1 wit_req1 wit_empty_state).2).2.patterns.length
      = (store_successful_pattern 1 wit_req1 wit_empty_state).2.patterns.length ∧
    count_signature (store_successful_pattern 2 wit_req2
        (store_successful_pattern 1 wit_req1 wit_empty_state).2).2
      wit_req1.vulnerability_type (file_extension_of wit_req1.file_path)
      wit_req1.fix_description = 1 ∧
    ∃ p, (store_successful_pattern 2 wit_req2
        (store_successful_pattern 1 wit_req1 wit_empty_state).2).2.patterns.find?
          (matches_signature wit_req1.vulnerability_type
            (file_extension_of wit_req1.file_path) wit_req1.fix_description)
        = some p ∧
      p.success_count = 2 ∧
      p.analysis_ids = [wit_req1.analysis_id, wit_req2.analysis_id] ∧
      p.last_used_at = 2 ∧
      p.id = (store_successful_pattern 1 wit_req1 wit_empty_state).1) :=
  ⟨store_pattern_dedup.1 [(1, wit_req1), (2, wit_req2)] wit_empty_state
     ("SQL_INJECTION") (".py") ("use params") (by decide),
   store_pattern_dedup.2 wit_empty_state 1 2 wit_req1 wit_req2 (by decide)
     (by decide) (by simp [wit_empty_state, wit_state1])⟩
